import Mathlib

/-!
# Verification of the Autodidact learning-graph engine

Shallow embedding of the core logic of the Autodidact application
(`app.py` together with the `backend` helpers it calls) and proofs of the
specified properties: graph eligibility, clarification state machine,
research orchestration, graph persistence, and progress display.
-/

set_option autoImplicit false

namespace Autodidact

/-! ## Data model (spec section 3 / graph payload wire shape, section 6) -/

/-- A concept node of the graph payload: `{ "id": ..., "label": ... }`. -/
structure Node where
  id : String
  label : String
  deriving Repr, DecidableEq

/-- A directed prerequisite edge of the graph payload:
`{ "source": ..., "target": ... }` meaning source is a prerequisite of target. -/
structure Edge where
  source : String
  target : String
  deriving Repr, DecidableEq

/-- A graph payload as produced by the deep-research collaborator. -/
structure Graph where
  nodes : List Node
  edges : List Edge
  deriving Repr, DecidableEq

/-- The mastery threshold: a node is mastered when its mastery is `≥ 0.7`
(`app.py` uses the literal `0.7`, e.g. in `show_workspace`).  Written as the
reduced fraction `7/10` so that the kernel can evaluate comparisons. -/
def threshold : ℚ := Rat.mk' 7 10

/-! ## EligibilityResolver -/

/-- Direct prerequisites of a node: sources of the incoming edges. -/
def prereqs (g : Graph) (nid : String) : List String :=
  (g.edges.filter (fun e => e.target = nid)).map (fun e => e.source)

/-- Eligibility predicate: the node is not itself mastered and every direct
prerequisite is mastered. -/
def isEligible (g : Graph) (m : String → ℚ) (nid : String) : Bool :=
  decide (m nid < threshold) && (prereqs g nid).all (fun p => decide (threshold ≤ m p))

/-- Modelled from the spec: `backend.db.get_next_nodes` is imported by
`app.py` but the `backend/db.py` module is not part of the given source.
Spec section 4.2: return, in the insertion order of the payload, the nodes
that are not yet mastered (mastery `< 0.7`) and all of whose direct
prerequisite nodes (sources of incoming edges) are mastered (`≥ 0.7`). -/
def get_next_nodes (g : Graph) (m : String → ℚ) : List Node :=
  g.nodes.filter (fun n => isEligible g m n.id)

/-! ## GraphStore: persisted rows and `save_graph` -/

/-- A persisted row of the `node` table, keyed by project id and original id. -/
structure NodeRow where
  project_id : String
  original_id : String
  label : String
  mastery : ℚ
  deriving Repr, DecidableEq

/-- A persisted row of the `edge` table, keyed by project id, source, target. -/
structure EdgeRow where
  project_id : String
  source : String
  target : String
  deriving Repr, DecidableEq

/-- The persistent store state: the node and edge tables. -/
structure DB where
  nodeRows : List NodeRow
  edgeRows : List EdgeRow
  deriving Repr, DecidableEq

/-- Errors of the graph-persistence layer (spec section 7). -/
inductive GraphError where
  | validation
  | storage
  deriving Repr, DecidableEq

/-- Whether a node row for project `pid` with original id `n.id` exists. -/
def nodePresent (pid : String) (n : Node) (rows : List NodeRow) : Bool :=
  rows.any (fun r => r.project_id == pid && r.original_id == n.id)

/-- Upsert-by-original-id for one node: insert a fresh row (mastery 0) unless a
row with the same key already exists. -/
def upsertNode (pid : String) (rows : List NodeRow) (n : Node) : List NodeRow :=
  if nodePresent pid n rows then rows
  else rows ++ [⟨pid, n.id, n.label, 0⟩]

/-- Upsert every payload node, in payload order. -/
def insertNodes (pid : String) (ns : List Node) (rows : List NodeRow) : List NodeRow :=
  ns.foldl (upsertNode pid) rows

/-- Whether an edge row for project `pid` with endpoints of `e` exists. -/
def edgePresent (pid : String) (e : Edge) (rows : List EdgeRow) : Bool :=
  rows.any (fun r => r.project_id == pid && r.source == e.source && r.target == e.target)

/-- Upsert-by-key for one edge. -/
def upsertEdge (pid : String) (rows : List EdgeRow) (e : Edge) : List EdgeRow :=
  if edgePresent pid e rows then rows
  else rows ++ [⟨pid, e.source, e.target⟩]

/-- Upsert every payload edge, in payload order. -/
def insertEdges (pid : String) (es : List Edge) (rows : List EdgeRow) : List EdgeRow :=
  es.foldl (upsertEdge pid) rows

/-- The ids of the payload's node set. -/
def nodeIds (g : Graph) : List String :=
  g.nodes.map Node.id

/-- Payload validation: every edge endpoint names a node of the payload. -/
def edgesValid (g : Graph) : Bool :=
  g.edges.all (fun e => (nodeIds g).contains e.source && (nodeIds g).contains e.target)

/-- Modelled from the spec: `backend.db.save_graph_to_db` is imported by
`app.py` but the `backend/db.py` module is not part of the given source.
Spec section 4.1: decompose the payload into node and edge rows and write them
transactionally; fail with `GraphValidationError` if an edge references a node
id not present in the accompanying node set; re-invocation for the same
project id must not create duplicate rows (upsert-by-original-id). -/
def save_graph (pid : String) (g : Graph) (db : DB) : Except GraphError DB :=
  if edgesValid g then
    Except.ok ⟨insertNodes pid g.nodes db.nodeRows, insertEdges pid g.edges db.edgeRows⟩
  else
    Except.error GraphError.validation

/-- The store state visible to readers after a `save_graph` call: the write is
an atomic batch, so on failure the state is unchanged (spec section 4.1). -/
def dbAfterSave (pid : String) (g : Graph) (db : DB) : DB :=
  match save_graph pid g db with
  | Except.ok db2 => db2
  | Except.error _ => db

/-! ## ClarificationEngine (`handle_clarification`, app.py lines 102-163) -/

/-- Result dictionary returned by the topic-analysis call `clarify_topic`. -/
structure ClarifyResult where
  need_clarification : Bool
  questions : List String
  refined_topic : Option String
  deriving Repr, DecidableEq

/-- The Streamlit session-state fields the clarification/research flow reads
and writes (`init_session_state`, app.py lines 52-65). -/
structure SessionState where
  clarification_state : Option ClarifyResult
  clarification_attempts : Nat
  project_id : Option String
  deriving Repr, DecidableEq

/-- Lower-casing of a string, character by character; models Python's
`str.lower()` on the ASCII range. -/
def toLowerStr (s : String) : String :=
  ⟨s.data.map Char.toLower⟩

/-- Modelled from the spec: `backend.jobs.is_skip_response` is imported by
`app.py` but the `backend/jobs.py` module is not part of the given source.
Spec section 4.3: classify an answer as a skip response by a case-insensitive
match against the vocabulary "skip", "idk", "not sure", or the empty string. -/
def is_skip_response (r : String) : Bool :=
  r == "" || toLowerStr r == "skip" || toLowerStr r == "idk"
    || toLowerStr r == "not sure"

/-- The button press, if any, that a single pass of `handle_clarification`
reacts to while the clarification questions are displayed. -/
inductive UserEvent where
  | submit (responses : List String)
  | skipClar
  | idle
  deriving Repr, DecidableEq

/-- Observable outcome of one pass of `handle_clarification`: the session
state it leaves behind, whether it invoked the external analysis collaborator
(`clarify_topic`), whether it reported an error, and the `(topic, hours)`
argument of the `start_deep_research` call it issued, if any. -/
structure ClarifyOutcome where
  state : SessionState
  calledAnalysis : Bool
  errorShown : Bool
  research : Option (String × Nat)
  deriving Repr, DecidableEq

/-- The body of `handle_clarification` once an analysis result is at hand
(app.py lines 115-163): if clarification is needed, react to the button event;
an all-skip submission below the retry bound re-prompts, otherwise the
responses are processed (`process_clarification_responses`, modelled by the
oracle `process`) and research starts; the skip button starts research with
the original topic; without need for clarification research starts directly. -/
def clarifyStep (process : List String → List String → Option String)
    (topic : String) (hours : Nat) (result : ClarifyResult)
    (st : SessionState) (calledA : Bool) (ev : UserEvent) : ClarifyOutcome :=
  if result.need_clarification then
    match ev with
    | UserEvent.submit responses =>
      if (responses.filter is_skip_response).length = responses.length
          ∧ st.clarification_attempts < 2 then
        ⟨{ st with clarification_attempts := st.clarification_attempts + 1 },
          calledA, false, none⟩
      else
        ⟨st, calledA, false,
          some ((process result.questions responses).getD topic, hours)⟩
    | UserEvent.skipClar => ⟨st, calledA, false, some (topic, hours)⟩
    | UserEvent.idle => ⟨st, calledA, false, none⟩
  else
    ⟨st, calledA, false, some (result.refined_topic.getD topic, hours)⟩

/-- Embedding of `handle_clarification` (app.py lines 102-163). The external
call `clarify_topic(topic, hours)` is modelled by the oracle `analysis`
(`Except.error` = the call raised); `process_clarification_responses` by the
pure oracle `process`. If no clarification state is stored the analysis call
is made first; on failure the error is shown and the function returns with
the state untouched. -/
def handle_clarification (analysis : Except String ClarifyResult)
    (process : List String → List String → Option String)
    (topic : String) (hours : Nat)
    (st : SessionState) (ev : UserEvent) : ClarifyOutcome :=
  match st.clarification_state with
  | Option.none =>
    match analysis with
    | Except.error _ => ⟨st, true, true, none⟩
    | Except.ok result =>
      clarifyStep process topic hours result
        { st with clarification_state := some result, clarification_attempts := 0 }
        true ev
  | Option.some result => clarifyStep process topic hours result st false ev

/-! ## ResearchOrchestrator (`start_deep_research`, app.py lines 166-245) -/

/-- The bundle returned by the deep-research collaborator. -/
structure ResearchBundle where
  report_markdown : String
  graph : Graph
  footnotes : List String
  deriving Repr, DecidableEq

/-- Outcomes of the four external calls `start_deep_research` makes, fixed up
front: `run_deep_research_job`, `save_project_files`, `create_project` and
`save_graph_to_db`; `Except.error` models the call raising. -/
structure ResearchOracles where
  research_job : Except String ResearchBundle
  save_files : Except String String
  create_proj : Except String String
  save_graph_db : Except String Unit
  deriving Repr

/-- Observable outcome of `start_deep_research`: the session state it leaves
behind and whether it reported an error. -/
structure ResearchOutcome where
  state : SessionState
  errorShown : Bool
  deriving Repr, DecidableEq

/-- Embedding of `start_deep_research` (app.py lines 166-245): the
clarification state is reset first (line 168); then, inside one try block, the
research job runs, the files are saved, the project record is created and the
graph is saved to the database; only then is the session's project id
assigned (line 224).  Any raise lands in the except branch, which shows the
error and leaves the session state otherwise untouched. -/
def start_deep_research (oc : ResearchOracles) (st : SessionState) : ResearchOutcome :=
  match oc.research_job with
  | Except.error _ => ⟨{ st with clarification_state := none }, true⟩
  | Except.ok _ =>
    match oc.save_files with
    | Except.error _ => ⟨{ st with clarification_state := none }, true⟩
    | Except.ok _ =>
      match oc.create_proj with
      | Except.error _ => ⟨{ st with clarification_state := none }, true⟩
      | Except.ok pid =>
        match oc.save_graph_db with
        | Except.error _ => ⟨{ st with clarification_state := none }, true⟩
        | Except.ok _ =>
          ⟨{ st with clarification_state := none, project_id := some pid }, false⟩

/-! ## Progress display (`show_workspace`, app.py lines 449-458) -/

/-- The number of mastered concepts: `sum(1 for m in node_mastery.values()
if m >= 0.7)`, where `node_mastery` is the per-node mastery mapping read from
the `node` table. -/
def masteredCount (node_mastery : List (String × ℚ)) : Nat :=
  (node_mastery.filter (fun p => decide (threshold ≤ p.2))).length

/-- The overall progress percentage of `show_workspace`:
`int((mastered_nodes / total_nodes) * 100) if total_nodes > 0 else 0`, with
`total_nodes` the length of the payload's node list. -/
def progress_pct (graphNodes : List Node) (node_mastery : List (String × ℚ)) : Nat :=
  if 0 < graphNodes.length then masteredCount node_mastery * 100 / graphNodes.length
  else 0

/-! ## Concrete instances for witnesses and counterexamples -/

/-- Scenario node `a` (spec section 8, scenario B). -/
def nodeA : Node := ⟨"a", "Vectors"⟩

/-- Scenario node `b`. -/
def nodeB : Node := ⟨"b", "Matrices"⟩

/-- The two-node graph of spec scenarios B-D: `a` is a prerequisite of `b`. -/
def gAB : Graph := ⟨[nodeA, nodeB], [⟨"a", "b"⟩]⟩

/-- Mastery snapshot of scenario B: `a` mastered, `b` not. -/
def mAB : String → ℚ := fun s => if s = "a" then 1 else 0

/-- A payload with an edge whose target id is absent from the node set. -/
def gBad : Graph := ⟨[nodeA], [⟨"a", "z"⟩]⟩

/-- The empty store. -/
def dbEmpty : DB := ⟨[], []⟩

/-- The store after saving `gAB` under project id `"p"` into the empty store. -/
def dbAB : DB :=
  ⟨[⟨"p", "a", "Vectors", 0⟩, ⟨"p", "b", "Matrices", 0⟩], [⟨"p", "a", "b"⟩]⟩

/-- A fresh session state. -/
def stEmpty : SessionState := ⟨none, 0, none⟩

/-- An analysis result that asks one clarification question. -/
def cr1 : ClarifyResult := ⟨true, ["q1"], none⟩

/-- A session awaiting answers to `cr1`, no retries yet. -/
def stAwait : SessionState := ⟨some cr1, 0, none⟩

/-- A response synthesizer that never produces a refined topic. -/
def procNone : List String → List String → Option String := fun _ _ => none

/-- Oracles under which every external call of `start_deep_research`
succeeds, the project id being `"pid1"`. -/
def ocOk : ResearchOracles :=
  ⟨Except.ok ⟨"report", gAB, []⟩, Except.ok "path", Except.ok "pid1", Except.ok ()⟩

/-- Oracles under which the research job itself raises. -/
def ocBad : ResearchOracles :=
  ⟨Except.error "boom", Except.ok "path", Except.ok "pid1", Except.ok ()⟩

/-- One-node payload for the progress counterexample. -/
def cgNodes : List Node := [nodeA]

/-- A mastery snapshot with more rows than `cgNodes` has nodes. -/
def cMastery : List (String × ℚ) := [("a", 1), ("b", 1)]

/-! ## Helper lemmas about the store -/

theorem nodePresent_append (pid : String) (n : Node) (rows more : List NodeRow) :
    nodePresent pid n (rows ++ more)
      = (nodePresent pid n rows || nodePresent pid n more) :=
  List.any_append

theorem nodePresent_upsert_mono (pid : String) (n m2 : Node) (rows : List NodeRow)
    (h : nodePresent pid n rows = true) :
    nodePresent pid n (upsertNode pid rows m2) = true := by
  rw [upsertNode]
  split
  · exact h
  · rw [nodePresent_append, h, Bool.true_or]

theorem nodePresent_upsert_self (pid : String) (n : Node) (rows : List NodeRow) :
    nodePresent pid n (upsertNode pid rows n) = true := by
  rw [upsertNode]
  split
  · assumption
  · rw [nodePresent_append]
    have h1 : nodePresent pid n [⟨pid, n.id, n.label, 0⟩] = true := by
      simp [nodePresent]
    rw [h1, Bool.or_true]

theorem insertNodes_mono (pid : String) (n : Node) (ns : List Node) :
    ∀ rows : List NodeRow, nodePresent pid n rows = true →
      nodePresent pid n (insertNodes pid ns rows) = true := by
  induction ns with
  | nil => intro rows h; exact h
  | cons m2 tl ih =>
    intro rows h
    exact ih (upsertNode pid rows m2) (nodePresent_upsert_mono pid n m2 rows h)

theorem insertNodes_present (pid : String) (ns : List Node) :
    ∀ (rows : List NodeRow) (n : Node), n ∈ ns →
      nodePresent pid n (insertNodes pid ns rows) = true := by
  induction ns with
  | nil => intro rows n hn; cases hn
  | cons m2 tl ih =>
    intro rows n hn
    rcases List.mem_cons.mp hn with h | h
    · subst h
      exact insertNodes_mono pid n tl (upsertNode pid rows n)
        (nodePresent_upsert_self pid n rows)
    · exact ih (upsertNode pid rows m2) n h

theorem insertNodes_of_present (pid : String) (ns : List Node) :
    ∀ rows : List NodeRow, (∀ n ∈ ns, nodePresent pid n rows = true) →
      insertNodes pid ns rows = rows := by
  induction ns with
  | nil => intro rows _; rfl
  | cons m2 tl ih =>
    intro rows h
    have h2 : upsertNode pid rows m2 = rows := by
      rw [upsertNode, if_pos (h m2 (List.mem_cons_self m2 tl))]
    calc insertNodes pid (m2 :: tl) rows
        = insertNodes pid tl (upsertNode pid rows m2) := rfl
      _ = insertNodes pid tl rows := by rw [h2]
      _ = rows := ih rows (fun n hn => h n (List.mem_cons_of_mem m2 hn))

theorem edgePresent_append (pid : String) (e : Edge) (rows more : List EdgeRow) :
    edgePresent pid e (rows ++ more)
      = (edgePresent pid e rows || edgePresent pid e more) :=
  List.any_append

theorem edgePresent_upsert_mono (pid : String) (e e2 : Edge) (rows : List EdgeRow)
    (h : edgePresent pid e rows = true) :
    edgePresent pid e (upsertEdge pid rows e2) = true := by
  rw [upsertEdge]
  split
  · exact h
  · rw [edgePresent_append, h, Bool.true_or]

theorem edgePresent_upsert_self (pid : String) (e : Edge) (rows : List EdgeRow) :
    edgePresent pid e (upsertEdge pid rows e) = true := by
  rw [upsertEdge]
  split
  · assumption
  · rw [edgePresent_append]
    have h1 : edgePresent pid e [⟨pid, e.source, e.target⟩] = true := by
      simp [edgePresent]
    rw [h1, Bool.or_true]

theorem insertEdges_mono (pid : String) (e : Edge) (es : List Edge) :
    ∀ rows : List EdgeRow, edgePresent pid e rows = true →
      edgePresent pid e (insertEdges pid es rows) = true := by
  induction es with
  | nil => intro rows h; exact h
  | cons e2 tl ih =>
    intro rows h
    exact ih (upsertEdge pid rows e2) (edgePresent_upsert_mono pid e e2 rows h)

theorem insertEdges_present (pid : String) (es : List Edge) :
    ∀ (rows : List EdgeRow) (e : Edge), e ∈ es →
      edgePresent pid e (insertEdges pid es rows) = true := by
  induction es with
  | nil => intro rows e he; cases he
  | cons e2 tl ih =>
    intro rows e he
    rcases List.mem_cons.mp he with h | h
    · subst h
      exact insertEdges_mono pid e tl (upsertEdge pid rows e)
        (edgePresent_upsert_self pid e rows)
    · exact ih (upsertEdge pid rows e2) e h

theorem insertEdges_of_present (pid : String) (es : List Edge) :
    ∀ rows : List EdgeRow, (∀ e ∈ es, edgePresent pid e rows = true) →
      insertEdges pid es rows = rows := by
  induction es with
  | nil => intro rows _; rfl
  | cons e2 tl ih =>
    intro rows h
    have h2 : upsertEdge pid rows e2 = rows := by
      rw [upsertEdge, if_pos (h e2 (List.mem_cons_self e2 tl))]
    calc insertEdges pid (e2 :: tl) rows
        = insertEdges pid tl (upsertEdge pid rows e2) := rfl
      _ = insertEdges pid tl rows := by rw [h2]
      _ = rows := ih rows (fun e he => h e (List.mem_cons_of_mem e2 he))

/-! ## Claim theorems -/

/-- C1: every node returned by `get_next_nodes` has mastery below the 0.7
threshold and all of its direct prerequisites at or above it; a node of the
graph with zero prerequisites is returned iff its own mastery is below the
threshold; and if no node satisfies the eligibility predicate the result is
the empty sequence. -/
theorem get_next_nodes_eligibility (g : Graph) (m : String → ℚ) :
    (∀ n ∈ get_next_nodes g m,
      m n.id < threshold ∧ ∀ p ∈ prereqs g n.id, threshold ≤ m p)
    ∧ (∀ n ∈ g.nodes, prereqs g n.id = [] →
      (n ∈ get_next_nodes g m ↔ m n.id < threshold))
    ∧ ((∀ n ∈ g.nodes, isEligible g m n.id = false) → get_next_nodes g m = []) := by
  refine ⟨?_, ?_, ?_⟩
  · intro n hn
    rw [get_next_nodes, List.mem_filter] at hn
    obtain ⟨-, he⟩ := hn
    rw [isEligible, Bool.and_eq_true, List.all_eq_true] at he
    obtain ⟨h1, h2⟩ := he
    exact ⟨of_decide_eq_true h1, fun p hp => of_decide_eq_true (h2 p hp)⟩
  · intro n hn hpre
    rw [get_next_nodes, List.mem_filter]
    constructor
    · rintro ⟨-, he⟩
      rw [isEligible, Bool.and_eq_true] at he
      exact of_decide_eq_true he.1
    · intro hm
      refine ⟨hn, ?_⟩
      rw [isEligible, hpre]
      simp [hm]
  · intro hall
    rw [get_next_nodes, List.filter_eq_nil_iff]
    intro n hn
    simp [hall n hn]

/-- Witness for C1: on the two-node scenario graph with `a` mastered, the
returned node `b` indeed has mastery below the threshold, and the full result
is `[b]`. -/
theorem get_next_nodes_eligibility_witness :
    mAB nodeB.id < threshold ∧ get_next_nodes gAB mAB = [nodeB] :=
  ⟨((get_next_nodes_eligibility gAB mAB).1 nodeB (by decide)).1, by decide⟩

/-- C4: re-invoking `save_graph` with the same project id and payload on the
store produced by a first successful invocation succeeds and leaves the node
and edge rows exactly as after the first invocation: no duplicates, counts
unchanged. -/
theorem save_graph_idempotent (pid : String) (g : Graph) (db db1 : DB)
    (h : save_graph pid g db = Except.ok db1) :
    save_graph pid g db1 = Except.ok db1 := by
  have hv : edgesValid g = true := by
    by_contra hv
    rw [save_graph, if_neg hv] at h
    exact Except.noConfusion h
  rw [save_graph, if_pos hv] at h
  injection h with h1
  have hdb : db1 = ⟨insertNodes pid g.nodes db.nodeRows,
      insertEdges pid g.edges db.edgeRows⟩ := h1.symm
  subst hdb
  rw [save_graph, if_pos hv]
  have hn := insertNodes_of_present pid g.nodes
    (insertNodes pid g.nodes db.nodeRows)
    (fun n hn => insertNodes_present pid g.nodes db.nodeRows n hn)
  have he := insertEdges_of_present pid g.edges
    (insertEdges pid g.edges db.edgeRows)
    (fun e he => insertEdges_present pid g.edges db.edgeRows e he)
  simp only [hn, he]

/-- Witness for C4: saving the scenario graph into the empty store yields
`dbAB`, and re-saving it on `dbAB` returns `dbAB` unchanged. -/
theorem save_graph_idempotent_witness :
    save_graph "p" gAB dbAB = Except.ok dbAB :=
  save_graph_idempotent "p" gAB dbEmpty dbAB (by rfl)

/-- C5: a payload containing an edge whose source or target id is absent from
the payload's node set is rejected with the validation error, and the store
state visible afterwards is the unchanged pre-state — no partial commit. -/
theorem save_graph_rejects_dangling (pid : String) (g : Graph) (db : DB)
    (h : ∃ e ∈ g.edges, e.source ∉ nodeIds g ∨ e.target ∉ nodeIds g) :
    save_graph pid g db = Except.error GraphError.validation
    ∧ dbAfterSave pid g db = db := by
  have hv : ¬ edgesValid g = true := by
    obtain ⟨e, he, hcase⟩ := h
    rw [edgesValid, List.all_eq_true]
    intro hall
    have := hall e he
    rw [Bool.and_eq_true, List.elem_iff, List.elem_iff] at this
    rcases hcase with h1 | h1
    · exact h1 this.1
    · exact h1 this.2
  have hs : save_graph pid g db = Except.error GraphError.validation := by
    rw [save_graph, if_neg hv]
  refine ⟨hs, ?_⟩
  rw [dbAfterSave, hs]

/-- Witness for C5: the payload `gBad` has an edge targeting the unknown id
`"z"`; saving it into the empty store fails with the validation error and
leaves the store empty. -/
theorem save_graph_rejects_dangling_witness :
    save_graph "p" gBad dbEmpty = Except.error GraphError.validation
    ∧ dbAfterSave "p" gBad dbEmpty = dbEmpty :=
  save_graph_rejects_dangling "p" gBad dbEmpty
    ⟨⟨"a", "z"⟩, by decide, Or.inr (by decide)⟩

/-- The post-analysis body of `handle_clarification` reports exactly the
analysis-call flag it was given: it never re-invokes the analysis
collaborator itself. -/
theorem clarifyStep_calledAnalysis
    (process : List String → List String → Option String)
    (topic : String) (hours : Nat) (result : ClarifyResult)
    (st : SessionState) (c : Bool) (ev : UserEvent) :
    (clarifyStep process topic hours result st c ev).calledAnalysis = c := by
  unfold clarifyStep
  split
  · cases ev with
    | submit responses =>
      dsimp only
      split <;> rfl
    | skipClar => rfl
    | idle => rfl
  · rfl

/-- C2: the session's project id is assigned — to the id returned by
`create_project` — only when the research call, the file save,
`create_project` and `save_graph_to_db` all return without raising; if any of
the four raises, the error is surfaced and the project id is left unchanged,
so a project whose graph failed to save is never exposed as ready. -/
theorem start_deep_research_commit (oc : ResearchOracles) (st : SessionState) :
    ((start_deep_research oc st).state.project_id ≠ st.project_id →
      ∃ b p pid, oc.research_job = Except.ok b ∧ oc.save_files = Except.ok p
        ∧ oc.create_proj = Except.ok pid ∧ oc.save_graph_db = Except.ok ()
        ∧ (start_deep_research oc st).state.project_id = some pid)
    ∧ (∀ e : String,
      (oc.research_job = Except.error e ∨ oc.save_files = Except.error e
        ∨ oc.create_proj = Except.error e ∨ oc.save_graph_db = Except.error e) →
      (start_deep_research oc st).errorShown = true
      ∧ (start_deep_research oc st).state.project_id = st.project_id) := by
  obtain ⟨rj, sf, cp, sg⟩ := oc
  refine ⟨?_, ?_⟩
  · intro hne
    cases rj with
    | error e => exact absurd rfl hne
    | ok b =>
      cases sf with
      | error e => exact absurd rfl hne
      | ok p =>
        cases cp with
        | error e => exact absurd rfl hne
        | ok pid =>
          cases sg with
          | error e => exact absurd rfl hne
          | ok u => exact ⟨b, p, pid, rfl, rfl, rfl, rfl, rfl⟩
  · intro e h
    cases rj with
    | error e2 => exact ⟨rfl, rfl⟩
    | ok b =>
      cases sf with
      | error e2 => exact ⟨rfl, rfl⟩
      | ok p =>
        cases cp with
        | error e2 => exact ⟨rfl, rfl⟩
        | ok pid =>
          cases sg with
          | error e2 => exact ⟨rfl, rfl⟩
          | ok u => rcases h with h | h | h | h <;> exact Except.noConfusion h

/-- Witness for C2: when the research job raises, the error is shown and the
project id of a fresh session is unchanged. -/
theorem start_deep_research_commit_witness :
    (start_deep_research ocBad stEmpty).errorShown = true
    ∧ (start_deep_research ocBad stEmpty).state.project_id = stEmpty.project_id :=
  (start_deep_research_commit ocBad stEmpty).2 "boom" (Or.inl rfl)

/-- C3: on an answer submission in which every answer is a skip response,
while the retry counter is below 2 the engine stays in AwaitingAnswers with
the counter incremented by exactly one, does not re-call the analysis
collaborator and launches no research; with the counter equal to 2 it instead
processes the responses and launches research — so at most two re-prompts
ever occur. -/
theorem handle_clarification_all_skip
    (analysis : Except String ClarifyResult)
    (process : List String → List String → Option String)
    (topic : String) (hours : Nat) (result : ClarifyResult) (st : SessionState)
    (responses : List String)
    (hstate : st.clarification_state = some result)
    (hneed : result.need_clarification = true)
    (hskip : responses.all is_skip_response = true) :
    (st.clarification_attempts < 2 →
      handle_clarification analysis process topic hours st
          (UserEvent.submit responses)
        = ⟨{ st with clarification_attempts := st.clarification_attempts + 1 },
            false, false, none⟩)
    ∧ (st.clarification_attempts = 2 →
      (handle_clarification analysis process topic hours st
          (UserEvent.submit responses)).research
        = some ((process result.questions responses).getD topic, hours)) := by
  have hfil : responses.filter is_skip_response = responses :=
    List.filter_eq_self.mpr (fun a ha => List.all_eq_true.mp hskip a ha)
  constructor
  · intro hlt
    unfold handle_clarification
    rw [hstate]
    show clarifyStep process topic hours result st false
        (UserEvent.submit responses) = _
    unfold clarifyStep
    rw [if_pos hneed]
    dsimp only
    rw [if_pos ⟨by rw [hfil], hlt⟩, hstate]
  · intro heq
    unfold handle_clarification
    rw [hstate]
    show (clarifyStep process topic hours result st false
        (UserEvent.submit responses)).research = _
    unfold clarifyStep
    rw [if_pos hneed]
    dsimp only
    rw [if_neg ?hcond]
    case hcond =>
      rintro ⟨-, h2⟩
      omega

/-- Witness for C3: the first all-skip submission in a fresh awaiting session
re-prompts, incrementing the counter to 1 and launching nothing. -/
theorem handle_clarification_all_skip_witness :
    handle_clarification (Except.ok cr1) procNone "topic" 5 stAwait
        (UserEvent.submit ["skip"])
      = ⟨⟨some cr1, 1, none⟩, false, false, none⟩ :=
  (handle_clarification_all_skip (Except.ok cr1) procNone "topic" 5 cr1
      stAwait ["skip"] rfl rfl (by decide)).1 (by decide)

/-- C6: if the topic-analysis call raises while no clarification state is
stored, the error is reported, the clarification state is still `none` — the
engine remains in Start with nothing persisted and no research launched — and
any re-submission will invoke the analysis collaborator again. -/
theorem handle_clarification_analysis_failure
    (process : List String → List String → Option String)
    (topic : String) (hours : Nat) (st : SessionState) (ev : UserEvent)
    (e : String) (hstate : st.clarification_state = none) :
    handle_clarification (Except.error e) process topic hours st ev
      = ⟨st, true, true, none⟩
    ∧ (handle_clarification (Except.error e) process topic hours st
        ev).state.clarification_state = none
    ∧ (∀ analysis2 : Except String ClarifyResult,
      (handle_clarification analysis2 process topic hours st
          ev).calledAnalysis = true) := by
  have h1 : handle_clarification (Except.error e) process topic hours st ev
      = ⟨st, true, true, none⟩ := by
    unfold handle_clarification
    rw [hstate]
  refine ⟨h1, by rw [h1]; exact hstate, ?_⟩
  intro analysis2
  unfold handle_clarification
  rw [hstate]
  cases analysis2 with
  | error e2 => rfl
  | ok r => exact clarifyStep_calledAnalysis process topic hours r _ true ev

/-- Witness for C6: with a failing analysis call on a fresh session, the
outcome shows the error and leaves the state untouched. -/
theorem handle_clarification_analysis_failure_witness :
    handle_clarification (Except.error "boom") procNone "t" 3 stEmpty
        UserEvent.idle
      = ⟨stEmpty, true, true, none⟩ :=
  (handle_clarification_analysis_failure procNone "t" 3 stEmpty
      UserEvent.idle "boom" rfl).1

/-- C7: an answer is classified as a skip response exactly when it is the
empty string or case-insensitively matches the skip vocabulary; in particular
"skip", "IDK" and "" are skips while "no clue" is substantive. -/
theorem is_skip_response_classification :
    (∀ r : String, is_skip_response r = true ↔
      (r = "" ∨ toLowerStr r = "skip" ∨ toLowerStr r = "idk"
        ∨ toLowerStr r = "not sure"))
    ∧ is_skip_response "skip" = true
    ∧ is_skip_response "IDK" = true
    ∧ is_skip_response "" = true
    ∧ is_skip_response "no clue" = false := by
  refine ⟨?_, by decide, by decide, by decide, by decide⟩
  intro r
  rw [is_skip_response]
  simp [Bool.or_eq_true, or_assoc]

/-- Witness for C7: "Not Sure" lower-cases into the vocabulary, hence is a
skip response. -/
theorem is_skip_response_classification_witness :
    is_skip_response "Not Sure" = true :=
  (is_skip_response_classification.1 "Not Sure").mpr
    (Or.inr (Or.inr (Or.inr (by decide))))

/-- C8: pressing the skip-clarification button while awaiting answers
launches research with the original topic unmodified, whatever the response
synthesizer would have produced. -/
theorem handle_clarification_skip_uses_original
    (analysis : Except String ClarifyResult)
    (process : List String → List String → Option String)
    (topic : String) (hours : Nat) (result : ClarifyResult) (st : SessionState)
    (hstate : st.clarification_state = some result)
    (hneed : result.need_clarification = true) :
    (handle_clarification analysis process topic hours st
        UserEvent.skipClar).research = some (topic, hours) := by
  unfold handle_clarification
  rw [hstate]
  show (clarifyStep process topic hours result st false UserEvent.skipClar).research = _
  unfold clarifyStep
  rw [if_pos hneed]

/-- Witness for C8: skipping clarification on the awaiting session launches
research with the topic exactly as given. -/
theorem handle_clarification_skip_uses_original_witness :
    (handle_clarification (Except.ok cr1) procNone "orig" 4 stAwait
        UserEvent.skipClar).research = some ("orig", 4) :=
  handle_clarification_skip_uses_original (Except.ok cr1) procNone "orig" 4
    cr1 stAwait rfl rfl

/-- C9: `start_deep_research` clears the clarification state before anything
else, so whatever the outcomes of the research job, the file save, the
project creation and the graph save, the session state it leaves behind has
no clarification state. -/
theorem start_deep_research_discards_clarification
    (oc : ResearchOracles) (st : SessionState) :
    (start_deep_research oc st).state.clarification_state = none := by
  obtain ⟨rj, sf, cp, sg⟩ := oc
  cases rj <;> cases sf <;> cases cp <;> cases sg <;> rfl

/-- C10 counterexample: with a one-node payload and a mastery snapshot
holding two mastered rows, the computed progress percentage is 200, outside
[0, 100] — so the claim, quantified over every graph and mastery snapshot, is
false. -/
theorem progress_pct_counterexample :
    progress_pct cgNodes cMastery = 200
    ∧ ¬ progress_pct cgNodes cMastery ≤ 100 := by
  constructor
  · decide
  · decide

/-- C10 amended: with zero payload nodes the progress percentage is 0 with
the division never taken; and whenever the mastery snapshot has at most as
many rows as the payload has nodes — as holds when both come from the same
save — the percentage is a natural number bounded by 100. -/
theorem progress_pct_bounded (graphNodes : List Node)
    (node_mastery : List (String × ℚ)) :
    (graphNodes = [] → progress_pct graphNodes node_mastery = 0)
    ∧ (node_mastery.length ≤ graphNodes.length →
      progress_pct graphNodes node_mastery ≤ 100) := by
  constructor
  · intro h
    subst h
    rfl
  · intro hle
    rw [progress_pct]
    by_cases h0 : 0 < graphNodes.length
    · rw [if_pos h0]
      have hm : masteredCount node_mastery ≤ graphNodes.length :=
        le_trans (List.length_filter_le _ _) hle
      calc masteredCount node_mastery * 100 / graphNodes.length
          ≤ graphNodes.length * 100 / graphNodes.length :=
            Nat.div_le_div_right (Nat.mul_le_mul_right 100 hm)
        _ = 100 := Nat.mul_div_cancel_left 100 h0
    · rw [if_neg h0]
      exact Nat.zero_le 100

/-- Witness for C10 amended: two nodes, two mastery rows, one mastered — the
percentage is within bounds. -/
theorem progress_pct_bounded_witness :
    progress_pct [nodeA, nodeB] [("a", 1), ("b", 0)] ≤ 100 :=
  (progress_pct_bounded [nodeA, nodeB] [("a", 1), ("b", 0)]).2 (by decide)

end Autodidact
